import Mathlib

/-!
Shallow embedding of `src/feedbacksystem.py`: a webhook service that stores
customers keyed by phone number on payment confirmation, schedules a WhatsApp
notification as a detached background task, and records customer feedback.

The relational store (SQLite via SQLAlchemy) is embedded as an explicit `DB`
state: the `customers` table (with its unique index on `phone`, line 27 of the
source) and the `feedback` table, together with the auto-increment counters for
the two integer primary keys. Handlers are state-passing functions returning a
result value, the new store state, and the scheduled background tasks.
-/

namespace FeedbackSystem

/-- A row of the `customers` table (source lines 21-27).
`phone` carries a unique index; `id` is the integer primary key. -/
structure Customer where
  id : Nat
  first_name : String
  second_name : String
  last_name : String
  phone : String
  deriving DecidableEq, Repr

/-- A row of the `feedback` table (source lines 29-34). -/
structure Feedback where
  id : Nat
  customer_id : Nat
  rating : Int
  comments : Option String
  deriving DecidableEq, Repr

/-- The persistent store: both tables plus the auto-increment counters that
assign the integer primary keys. -/
structure DB where
  customers : List Customer
  feedbacks : List Feedback
  nextCustomerId : Nat
  nextFeedbackId : Nat
  deriving DecidableEq, Repr

/-- The empty store, as created by `Base.metadata.create_all` (line 36). -/
def emptyDB : DB := ⟨[], [], 1, 1⟩

/-- The inbound payment payload (source lines 40-49). `MiddleName` and
`LastName` default to the empty string in the pydantic model. -/
structure PaymentPayload where
  TransID : String
  TransTime : String
  TransAmount : String
  BusinessShortCode : String
  BillRefNumber : String
  MSISDN : String
  FirstName : String
  MiddleName : String := ""
  LastName : String := ""
  deriving DecidableEq, Repr

/-- Python `s or default` on strings: the empty string is falsy. -/
def pyOr (s default : String) : String :=
  if s = "" then default else s

/-- `parse_payment_json` (source lines 52-60): extracts
`(transaction_id, firstname, secondname, lastname, phone)` from the payload,
with `MiddleName or ""` / `LastName or ""` for the optional names. -/
def parse_payment_json (data : PaymentPayload) :
    String × String × String × String × String :=
  (data.TransID, data.FirstName, pyOr data.MiddleName "", pyOr data.LastName "",
    data.MSISDN)

/-- `db.query(Customer).filter(Customer.phone == phone).first()`
(source lines 234 and 263): first row of the customers table whose phone
matches exactly, if any. -/
def lookupCustomer (db : DB) (phone : String) : Option Customer :=
  db.customers.find? (fun c => c.phone == phone)

/-- `db.add(customer); db.commit()` for a new customer row (source lines
236-239). The commit enforces the unique index on `phone` (line 27): it fails
(`IntegrityError`) when the table already holds a row with this phone, and
otherwise appends the row with the next auto-increment id. -/
def insertCustomer (db : DB) (firstname secondname lastname phone : String) :
    Except Unit (Customer × DB) :=
  if db.customers.any (fun c => c.phone == phone) then
    .error ()
  else
    let c : Customer :=
      ⟨db.nextCustomerId, firstname, secondname, lastname, phone⟩
    .ok (c, ⟨db.customers ++ [c], db.feedbacks, db.nextCustomerId + 1,
      db.nextFeedbackId⟩)

/-- The body of the `try` block of `payment_confirmation` (source lines
234-239), generalised to a race: the lookup reads the `snapshot` state while
the insert commits against the `current` state. Sequential execution is the
special case `snapshot = current`. -/
def resolveOrCreateRace (snapshot current : DB)
    (firstname secondname lastname phone : String) :
    Except Unit (Customer × DB) :=
  match lookupCustomer snapshot phone with
  | some c => .ok (c, current)
  | none => insertCustomer current firstname secondname lastname phone

/-- Sequential resolve-or-create (source lines 234-239): look the customer up
by phone; if absent, create and commit a new row. -/
def resolveOrCreate (db : DB) (firstname secondname lastname phone : String) :
    Except Unit (Customer × DB) :=
  resolveOrCreateRace db db firstname secondname lastname phone

/-- A scheduled `send_whatsapp_message` background task
(`background_tasks.add_task(send_whatsapp_message, phone, firstname)`,
source line 248). -/
structure NotifyTask where
  phone : String
  firstname : String
  deriving DecidableEq, Repr

/-- Result of the payment-confirmation handler: HTTP 400 for an invalid
payload, HTTP 500 when the commit fails, or the success acknowledgment. -/
inductive PaymentResult where
  | invalidPayload
  | storageError
  | ok
  deriving DecidableEq, Repr

/-- `payment_confirmation` with the lookup taken on an explicit `snapshot`
state (to express interleavings); the handler proper is the diagonal.
Source lines 226-250: parse, reject empty first name or phone with HTTP 400,
resolve-or-create the customer (rolling back to HTTP 500 on a commit
failure), schedule the WhatsApp task, and acknowledge. -/
def payment_confirmation_at (snapshot : DB) (payload : PaymentPayload)
    (db : DB) : PaymentResult × DB × List NotifyTask :=
  match parse_payment_json payload with
  | (_, firstname, secondname, lastname, phone) =>
    if firstname = "" ∨ phone = "" then
      (.invalidPayload, db, [])
    else
      match resolveOrCreateRace snapshot db firstname secondname lastname
          phone with
      | .error _ => (.storageError, db, [])
      | .ok (_, db') => (.ok, db', [⟨phone, firstname⟩])

/-- The `/payment-confirmation` handler (source lines 226-250). -/
def payment_confirmation (payload : PaymentPayload) (db : DB) :
    PaymentResult × DB × List NotifyTask :=
  payment_confirmation_at db payload db

/-- Response of the external WhatsApp service, as seen by
`send_whatsapp_message`. -/
structure HttpResponse where
  status_code : Nat
  text : String
  deriving DecidableEq, Repr

/-- `send_whatsapp_message` (source lines 170-192), after the outbound call
returned `resp`: a non-200 status is only logged; nothing is raised and no
store state is touched. The returned list is the log output. -/
def send_whatsapp_message (phone firstname : String) (resp : HttpResponse) :
    List String :=
  if resp.status_code ≠ 200 then
    ["Failed to send WhatsApp message: " ++ resp.text]
  else
    []

/-- A whole payment-confirmation request together with its detached
notification tasks: the handler runs first, then each scheduled task runs with
outcome `o` (`none` models a send that was never attempted or has not
completed; `some resp` a completed outbound call). Only the log depends on the
tasks. -/
def handle_payment_request (payload : PaymentPayload) (db : DB)
    (o : Option HttpResponse) : PaymentResult × DB × List String :=
  let step := payment_confirmation payload db
  (step.1, step.2.1,
    (step.2.2.map (fun t =>
      match o with
      | none => []
      | some resp => send_whatsapp_message t.phone t.firstname resp)).flatten)

/-- The inbound feedback payload (source lines 253-256); `comments` defaults
to `None`. -/
structure FeedbackResponse where
  phone : String
  rating : Int
  comments : Option String := none
  deriving DecidableEq, Repr

/-- Result of the feedback handler: HTTP 404 or success. -/
inductive FeedbackResult where
  | notFound
  | ok
  deriving DecidableEq, Repr

/-- The `/store-feedback` handler (source lines 259-279): look the customer up
by phone; 404 when absent; otherwise append a feedback row carrying the
customer's id, the submitted rating and comments. -/
def store_feedback (fb : FeedbackResponse) (db : DB) : FeedbackResult × DB :=
  match lookupCustomer db fb.phone with
  | none => (.notFound, db)
  | some c =>
    (.ok, ⟨db.customers,
      db.feedbacks ++ [⟨db.nextFeedbackId, c.id, fb.rating, fb.comments⟩],
      db.nextCustomerId, db.nextFeedbackId + 1⟩)

/-- Number of customer rows carrying a given phone. -/
def countPhone (db : DB) (phone : String) : Nat :=
  db.customers.countP (fun c => c.phone == phone)

/-- One resolve-or-create submission per list element, all for the same phone,
run sequentially; also collects the customer record returned by each call.
A commit failure (unreachable sequentially) leaves the state unchanged. -/
def runResolves (db : DB) (phone : String) :
    List (String × String × String) → DB × List Customer
  | [] => (db, [])
  | n :: ns =>
    match resolveOrCreate db n.1 n.2.1 n.2.2 phone with
    | .ok (c, db') =>
      match runResolves db' phone ns with
      | (dbf, cs) => (dbf, c :: cs)
    | .error _ =>
      match runResolves db phone ns with
      | (dbf, cs) => (dbf, cs)

/-! ## Helper lemmas -/

/-- A failed `find?` over a prefix passes through an append. -/
theorem find?_append_of_none {α} (p : α → Bool) {l₁ : List α} (l₂ : List α)
    (h : l₁.find? p = none) : (l₁ ++ l₂).find? p = l₂.find? p := by
  induction l₁ with
  | nil => rfl
  | cons a l ih =>
    cases hpa : p a with
    | true => simp [List.find?_cons, hpa] at h
    | false =>
      simp only [List.find?_cons, hpa] at h
      simpa [List.find?_cons, hpa] using ih h

/-- When the lookup finds no row for `phone`, the unique-index check of the
commit passes. -/
theorem any_eq_false_of_lookup_none {db : DB} {phone : String}
    (h : lookupCustomer db phone = none) :
    db.customers.any (fun c => c.phone == phone) = false := by
  rw [List.any_eq_false]
  intro c hc
  simpa using List.find?_eq_none.mp h c hc

/-- When the lookup finds no row for `phone`, no row counts for `phone`. -/
theorem countPhone_eq_zero_of_lookup_none {db : DB} {phone : String}
    (h : lookupCustomer db phone = none) : countPhone db phone = 0 := by
  rw [countPhone, List.countP_eq_zero]
  intro c hc
  simpa using List.find?_eq_none.mp h c hc

/-- A sequential resolve-or-create on a state with no row for `phone` creates
the row with the next id and appends it. -/
theorem resolveOrCreate_of_lookup_none {db : DB} {phone : String}
    (firstname secondname lastname : String)
    (h : lookupCustomer db phone = none) :
    resolveOrCreate db firstname secondname lastname phone =
      .ok (⟨db.nextCustomerId, firstname, secondname, lastname, phone⟩,
        ⟨db.customers ++
            [⟨db.nextCustomerId, firstname, secondname, lastname, phone⟩],
          db.feedbacks, db.nextCustomerId + 1, db.nextFeedbackId⟩) := by
  rw [resolveOrCreate, resolveOrCreateRace, h, insertCustomer,
    if_neg (by simp [any_eq_false_of_lookup_none h])]

/-- A sequential resolve-or-create on a state that already holds a row for
`phone` returns that row and leaves the state unchanged. -/
theorem resolveOrCreate_of_lookup_some {db : DB} {phone : String}
    {c : Customer} (firstname secondname lastname : String)
    (h : lookupCustomer db phone = some c) :
    resolveOrCreate db firstname secondname lastname phone = .ok (c, db) := by
  rw [resolveOrCreate, resolveOrCreateRace, h]

/-- After the insert, the lookup returns exactly the inserted row. -/
theorem lookup_after_insert {db : DB} {phone : String}
    (firstname secondname lastname : String) (n : Nat)
    (h : lookupCustomer db phone = none) :
    lookupCustomer
      ⟨db.customers ++ [⟨n, firstname, secondname, lastname, phone⟩],
        db.feedbacks, db.nextCustomerId + 1, db.nextFeedbackId⟩ phone =
      some ⟨n, firstname, secondname, lastname, phone⟩ := by
  rw [lookupCustomer] at h ⊢
  rw [find?_append_of_none _ _ h]
  simp [List.find?_cons]

/-- Once a row for `phone` exists, any run of repeated resolve-or-create calls
leaves the state unchanged and returns that row every time. -/
theorem runResolves_of_lookup_some {db : DB} {phone : String} {c : Customer}
    (h : lookupCustomer db phone = some c)
    (ns : List (String × String × String)) :
    runResolves db phone ns = (db, List.replicate ns.length c) := by
  induction ns with
  | nil => rfl
  | cons n ns ih =>
    rw [runResolves, resolveOrCreate_of_lookup_some n.1 n.2.1 n.2.2 h]
    simp [ih, List.replicate_succ]

/-- Shared helper: the invalid-payload branch of `payment_confirmation`. -/
theorem payment_confirmation_invalid_eq (payload : PaymentPayload) (db : DB)
    (h : payload.FirstName = "" ∨ payload.MSISDN = "") :
    payment_confirmation payload db = (.invalidPayload, db, []) := by
  rw [payment_confirmation, payment_confirmation_at, parse_payment_json]
  exact if_pos h

/-- Shared helper: a valid payment event whose phone is already known leaves
the store unchanged, acknowledges, and schedules one notification task. -/
theorem payment_confirmation_of_lookup_some (payload : PaymentPayload)
    (db : DB) (c : Customer) (hf : payload.FirstName ≠ "")
    (hp : payload.MSISDN ≠ "")
    (hl : lookupCustomer db payload.MSISDN = some c) :
    payment_confirmation payload db =
      (.ok, db, [⟨payload.MSISDN, payload.FirstName⟩]) := by
  simp only [payment_confirmation, payment_confirmation_at,
    parse_payment_json]
  rw [if_neg (not_or.mpr ⟨hf, hp⟩), resolveOrCreateRace, hl]

/-- Shared helper: a valid payment event whose phone is unknown appends one
customer row, acknowledges, and schedules one notification task. -/
theorem payment_confirmation_of_lookup_none (payload : PaymentPayload)
    (db : DB) (hf : payload.FirstName ≠ "") (hp : payload.MSISDN ≠ "")
    (hl : lookupCustomer db payload.MSISDN = none) :
    payment_confirmation payload db =
      (.ok,
        ⟨db.customers ++ [⟨db.nextCustomerId, payload.FirstName,
          pyOr payload.MiddleName "", pyOr payload.LastName "",
          payload.MSISDN⟩],
          db.feedbacks, db.nextCustomerId + 1, db.nextFeedbackId⟩,
        [⟨payload.MSISDN, payload.FirstName⟩]) := by
  simp only [payment_confirmation, payment_confirmation_at,
    parse_payment_json]
  rw [if_neg (not_or.mpr ⟨hf, hp⟩), resolveOrCreateRace, hl, insertCustomer,
    if_neg (by simp [any_eq_false_of_lookup_none hl])]

/-- Shared helper: a handler invocation whose lookup ran against a stale
snapshot (no row for the phone) while the commit runs against a state that
already holds a row for the phone hits the unique index and answers
`storageError`, leaving the state unchanged. -/
theorem payment_confirmation_at_race_loser (snapshot db2 : DB)
    (p : PaymentPayload) (hf : p.FirstName ≠ "") (hp : p.MSISDN ≠ "")
    (hsnap : lookupCustomer snapshot p.MSISDN = none)
    (hcur : db2.customers.any (fun c => c.phone == p.MSISDN) = true) :
    payment_confirmation_at snapshot p db2 = (.storageError, db2, []) := by
  simp only [payment_confirmation_at, parse_payment_json]
  rw [if_neg (not_or.mpr ⟨hf, hp⟩), resolveOrCreateRace, hsnap,
    insertCustomer, if_pos hcur]

/-- Shared helper: appending one row for `phone` to a table with no row for
`phone` gives exactly one row for `phone`. -/
theorem countP_append_single {l : List Customer} {phone : String}
    (h0 : l.countP (fun c => c.phone == phone) = 0) {c : Customer}
    (hc : c.phone = phone) :
    (l ++ [c]).countP (fun x => x.phone == phone) = 1 := by
  simp [List.countP_append, h0, List.countP_cons, hc]

/-! ## Claims -/

/-- C3: a payload whose `FirstName` or `MSISDN` is the empty string is
rejected with the invalid-payload client error (HTTP 400), the store is left
unchanged, and no notification task is scheduled. -/
theorem invalid_payload_rejected_no_side_effects (payload : PaymentPayload)
    (db : DB) (h : payload.FirstName = "" ∨ payload.MSISDN = "") :
    payment_confirmation payload db = (.invalidPayload, db, []) := by
  rw [payment_confirmation, payment_confirmation_at, parse_payment_json]
  exact if_pos h

/-- Witness for C3 at a concrete payload with empty `MSISDN`. -/
theorem invalid_payload_rejected_no_side_effects_case :
    ((⟨"T1", "20240101", "100", "600000", "ref", "", "Jane", "", "Doe"⟩ :
        PaymentPayload).FirstName = "" ∨
      (⟨"T1", "20240101", "100", "600000", "ref", "", "Jane", "", "Doe"⟩ :
        PaymentPayload).MSISDN = "") ∧
    payment_confirmation
        ⟨"T1", "20240101", "100", "600000", "ref", "", "Jane", "", "Doe"⟩
        emptyDB =
      (.invalidPayload, emptyDB, []) :=
  ⟨Or.inr rfl,
    invalid_payload_rejected_no_side_effects _ emptyDB (Or.inr rfl)⟩

/-- C4: a feedback submission whose phone matches no customer answers
not-found (HTTP 404) and leaves the store — both tables — unchanged. -/
theorem unknown_phone_feedback_no_write (fb : FeedbackResponse) (db : DB)
    (h : lookupCustomer db fb.phone = none) :
    store_feedback fb db = (.notFound, db) := by
  rw [store_feedback, h]

/-- Witness for C4 on the empty store. -/
theorem unknown_phone_feedback_no_write_case :
    lookupCustomer emptyDB "254712345678" = none ∧
    store_feedback ⟨"254712345678", 5, some "great service"⟩ emptyDB =
      (.notFound, emptyDB) :=
  ⟨rfl, unknown_phone_feedback_no_write _ emptyDB rfl⟩

/-- C5: a feedback submission whose phone matches customer `c` succeeds and
appends exactly one feedback row — carrying `c.id`, the submitted rating and
the submitted comments — while the customers table is unchanged. -/
theorem known_phone_feedback_appended (fb : FeedbackResponse) (db : DB)
    (c : Customer) (h : lookupCustomer db fb.phone = some c) :
    store_feedback fb db =
      (.ok, ⟨db.customers,
        db.feedbacks ++ [⟨db.nextFeedbackId, c.id, fb.rating, fb.comments⟩],
        db.nextCustomerId, db.nextFeedbackId + 1⟩) := by
  rw [store_feedback, h]

/-- Customer row used by concrete test states. -/
def cJane : Customer := ⟨1, "Jane", "", "Doe", "254712345678"⟩

/-- A store holding exactly one customer, `cJane`, and no feedback. -/
def dbJane : DB := ⟨[cJane], [], 2, 1⟩

/-- Witness for C5 on a store holding one customer. -/
theorem known_phone_feedback_appended_case :
    lookupCustomer dbJane "254712345678" = some cJane ∧
    store_feedback ⟨"254712345678", 5, some "great service"⟩ dbJane =
      (.ok, ⟨dbJane.customers,
        dbJane.feedbacks ++ [⟨dbJane.nextFeedbackId, cJane.id, 5,
          some "great service"⟩],
        dbJane.nextCustomerId, dbJane.nextFeedbackId + 1⟩) :=
  ⟨rfl, known_phone_feedback_appended _ dbJane cJane rfl⟩

/-- C8: the 1-5 rating range is not enforced: for every integer rating,
including values outside 1-5, a submission for a known phone succeeds and the
rating is stored verbatim in the appended row. -/
theorem rating_range_not_enforced (fb : FeedbackResponse) (db : DB)
    (c : Customer) (h : lookupCustomer db fb.phone = some c) :
    (store_feedback fb db).1 = .ok ∧
    (store_feedback fb db).2.feedbacks =
      db.feedbacks ++ [⟨db.nextFeedbackId, c.id, fb.rating, fb.comments⟩] := by
  rw [store_feedback, h]
  exact ⟨rfl, rfl⟩

/-- Witness for C8 at the out-of-range ratings 0, 6 and -3. -/
theorem rating_range_not_enforced_case :
    lookupCustomer dbJane "254712345678" = some cJane ∧
    (store_feedback ⟨"254712345678", 0, none⟩ dbJane).1 = .ok ∧
    (store_feedback ⟨"254712345678", 6, none⟩ dbJane).1 = .ok ∧
    (store_feedback ⟨"254712345678", -3, none⟩ dbJane).2.feedbacks =
      dbJane.feedbacks ++ [⟨dbJane.nextFeedbackId, cJane.id, -3, none⟩] :=
  ⟨rfl, (rating_range_not_enforced ⟨"254712345678", 0, none⟩ dbJane cJane
      rfl).1,
    (rating_range_not_enforced ⟨"254712345678", 6, none⟩ dbJane cJane rfl).1,
    (rating_range_not_enforced ⟨"254712345678", -3, none⟩ dbJane cJane
      rfl).2⟩

/-- C1: starting from a store with no row for phone `P`, any nonempty run of
repeated resolve-or-create submissions for `P` leaves exactly one customer row
for `P`; the row carries the first submission's name fields, every later
submission's name fields are discarded (the state does not change again), and
every call — the first included — returns that same record unchanged. -/
theorem repeated_resolveOrCreate_first_write_wins (db : DB) (phone : String)
    (n : String × String × String) (ns : List (String × String × String))
    (h : lookupCustomer db phone = none) :
    runResolves db phone (n :: ns) =
      (⟨db.customers ++ [⟨db.nextCustomerId, n.1, n.2.1, n.2.2, phone⟩],
        db.feedbacks, db.nextCustomerId + 1, db.nextFeedbackId⟩,
        List.replicate (ns.length + 1)
          ⟨db.nextCustomerId, n.1, n.2.1, n.2.2, phone⟩) ∧
    countPhone (runResolves db phone (n :: ns)).1 phone = 1 := by
  have h1 := resolveOrCreate_of_lookup_none n.1 n.2.1 n.2.2 h
  have h2 := lookup_after_insert n.1 n.2.1 n.2.2 db.nextCustomerId h
  have hrun : runResolves db phone (n :: ns) =
      (⟨db.customers ++ [⟨db.nextCustomerId, n.1, n.2.1, n.2.2, phone⟩],
        db.feedbacks, db.nextCustomerId + 1, db.nextFeedbackId⟩,
        List.replicate (ns.length + 1)
          ⟨db.nextCustomerId, n.1, n.2.1, n.2.2, phone⟩) := by
    rw [runResolves, h1]
    simp only [runResolves_of_lookup_some h2 ns, List.replicate_succ]
  refine ⟨hrun, ?_⟩
  rw [hrun, countPhone]
  exact countP_append_single (countPhone_eq_zero_of_lookup_none h) rfl

/-- Witness for C1: two submissions for the same phone on the empty store;
only the first submission's name fields are kept and both calls return the
one created record. -/
theorem repeated_resolveOrCreate_first_write_wins_case :
    lookupCustomer emptyDB "254712345678" = none ∧
    (runResolves emptyDB "254712345678"
        [("Jane", "", "Doe"), ("Janet", "M", "Smith")] =
      (⟨[⟨1, "Jane", "", "Doe", "254712345678"⟩], [], 2, 1⟩,
        List.replicate 2 ⟨1, "Jane", "", "Doe", "254712345678"⟩) ∧
     countPhone (runResolves emptyDB "254712345678"
        [("Jane", "", "Doe"), ("Janet", "M", "Smith")]).1 "254712345678" =
       1) :=
  ⟨rfl, repeated_resolveOrCreate_first_write_wins emptyDB "254712345678"
    ("Jane", "", "Doe") [("Janet", "M", "Smith")] rfl⟩

/-- Shared helper: for a valid payment event the handler acknowledges and the
resulting store holds a customer row for the event's MSISDN. -/
theorem payment_confirmation_valid (payload : PaymentPayload) (db : DB)
    (hf : payload.FirstName ≠ "") (hp : payload.MSISDN ≠ "") :
    (payment_confirmation payload db).1 = .ok ∧
    (payment_confirmation payload db).2.1.customers.any
      (fun c => c.phone == payload.MSISDN) = true := by
  cases hl : lookupCustomer db payload.MSISDN with
  | some c =>
    rw [payment_confirmation_of_lookup_some payload db c hf hp hl]
    refine ⟨rfl, List.any_eq_true.mpr ⟨c, List.mem_of_find?_eq_some hl, ?_⟩⟩
    simpa using List.find?_some hl
  | none =>
    rw [payment_confirmation_of_lookup_none payload db hf hp hl]
    simp

/-- C2: for every valid payment event (non-empty `FirstName` and `MSISDN`)
the handler acknowledges with success and the resulting store holds a
customer row for the event's MSISDN — and both the response and the store
state are the same for every notification outcome `o` versus `o'`
(not attempted, failed, or succeeded). -/
theorem valid_payment_persists_customer_before_response
    (payload : PaymentPayload) (db : DB) (o o' : Option HttpResponse)
    (hf : payload.FirstName ≠ "") (hp : payload.MSISDN ≠ "") :
    (handle_payment_request payload db o).1 = .ok ∧
    (handle_payment_request payload db o).2.1.customers.any
      (fun c => c.phone == payload.MSISDN) = true ∧
    (handle_payment_request payload db o).1 =
      (handle_payment_request payload db o').1 ∧
    (handle_payment_request payload db o).2.1 =
      (handle_payment_request payload db o').2.1 := by
  have hmain := payment_confirmation_valid payload db hf hp
  exact ⟨hmain.1, hmain.2, rfl, rfl⟩

/-- The concrete payment event of §8 of the spec. -/
def pJane : PaymentPayload :=
  ⟨"TX1", "20240101120000", "100", "600000", "ref1", "254712345678", "Jane",
    "", "Doe"⟩

/-- Witness for C2: the concrete event on the empty store, compared across a
never-attempted send and a failed send. -/
theorem valid_payment_persists_customer_before_response_case :
    pJane.FirstName ≠ "" ∧ pJane.MSISDN ≠ "" ∧
    ((handle_payment_request pJane emptyDB none).1 = .ok ∧
      (handle_payment_request pJane emptyDB none).2.1.customers.any
        (fun c => c.phone == pJane.MSISDN) = true ∧
      (handle_payment_request pJane emptyDB none).1 =
        (handle_payment_request pJane emptyDB (some ⟨500, "boom"⟩)).1 ∧
      (handle_payment_request pJane emptyDB none).2.1 =
        (handle_payment_request pJane emptyDB (some ⟨500, "boom"⟩)).2.1) :=
  ⟨by decide, by decide,
    valid_payment_persists_customer_before_response pJane emptyDB none
      (some ⟨500, "boom"⟩) (by decide) (by decide)⟩

/-- C7: the outcome of the detached notification send never reaches the
triggering request: for any two outcomes `o`, `o'` the response and the
resulting store agree, and a non-success response from the external service
only produces a log line. -/
theorem notification_failure_never_affects_response
    (payload : PaymentPayload) (db : DB) (o o' : Option HttpResponse)
    (resp : HttpResponse) (hresp : resp.status_code ≠ 200) :
    (handle_payment_request payload db o).1 =
      (handle_payment_request payload db o').1 ∧
    (handle_payment_request payload db o).2.1 =
      (handle_payment_request payload db o').2.1 ∧
    send_whatsapp_message payload.MSISDN payload.FirstName resp =
      ["Failed to send WhatsApp message: " ++ resp.text] := by
  refine ⟨rfl, rfl, ?_⟩
  rw [send_whatsapp_message, if_pos hresp]

/-- Witness for C7 at a concrete request with a 500 from the WhatsApp API. -/
theorem notification_failure_never_affects_response_case :
    (⟨500, "server error"⟩ : HttpResponse).status_code ≠ 200 ∧
    ((handle_payment_request pJane emptyDB (some ⟨500, "server error"⟩)).1 =
      (handle_payment_request pJane emptyDB none).1 ∧
     (handle_payment_request pJane emptyDB
        (some ⟨500, "server error"⟩)).2.1 =
      (handle_payment_request pJane emptyDB none).2.1 ∧
     send_whatsapp_message pJane.MSISDN pJane.FirstName
        ⟨500, "server error"⟩ =
      ["Failed to send WhatsApp message: " ++ "server error"]) :=
  ⟨by decide,
    notification_failure_never_affects_response pJane emptyDB
      (some ⟨500, "server error"⟩) none ⟨500, "server error"⟩ (by decide)⟩

/-- The invariant of C9: every customer row has a non-empty phone and a
non-empty first name. -/
def CustInv (db : DB) : Prop :=
  ∀ c ∈ db.customers, c.phone ≠ "" ∧ c.first_name ≠ ""

/-- C9: both handlers preserve the invariant that every customer row has a
non-empty phone and first name — the only creation path rejects empty
`FirstName` or `MSISDN` before any write, and no operation updates or
deletes customers. -/
theorem customer_fields_nonempty_invariant (payload : PaymentPayload)
    (fb : FeedbackResponse) (db : DB) (h : CustInv db) :
    CustInv (payment_confirmation payload db).2.1 ∧
    CustInv (store_feedback fb db).2 := by
  constructor
  · by_cases hv : payload.FirstName = "" ∨ payload.MSISDN = ""
    · rw [payment_confirmation_invalid_eq payload db hv]
      exact h
    · push_neg at hv
      cases hl : lookupCustomer db payload.MSISDN with
      | some c =>
        rw [payment_confirmation_of_lookup_some payload db c hv.1 hv.2 hl]
        exact h
      | none =>
        rw [payment_confirmation_of_lookup_none payload db hv.1 hv.2 hl]
        intro x hx
        rcases List.mem_append.mp hx with hx | hx
        · exact h x hx
        · rw [List.mem_singleton.mp hx]
          exact ⟨hv.2, hv.1⟩
  · rw [store_feedback]
    cases hl : lookupCustomer db fb.phone with
    | none => exact h
    | some c => exact h

/-- Witness for C9 on a store holding one well-formed customer. -/
theorem customer_fields_nonempty_invariant_case :
    CustInv dbJane ∧
    (CustInv (payment_confirmation pJane dbJane).2.1 ∧
      CustInv (store_feedback ⟨"254712345678", 4, some "good"⟩ dbJane).2) :=
  ⟨by unfold CustInv; decide,
    customer_fields_nonempty_invariant pJane
      ⟨"254712345678", 4, some "good"⟩ dbJane (by unfold CustInv; decide)⟩

/-- C10: the transaction metadata (`TransID`, `TransTime`, `TransAmount`,
`BusinessShortCode`, `BillRefNumber`) does not interfere with the handler:
two payloads agreeing on `MSISDN`, `FirstName`, `MiddleName` and `LastName`
produce the same response, the same store state and the same scheduled
tasks. -/
theorem transaction_metadata_noninterference (p1 p2 : PaymentPayload)
    (db : DB) (hph : p1.MSISDN = p2.MSISDN)
    (hf : p1.FirstName = p2.FirstName) (hm : p1.MiddleName = p2.MiddleName)
    (hl : p1.LastName = p2.LastName) :
    payment_confirmation p1 db = payment_confirmation p2 db := by
  simp only [payment_confirmation, payment_confirmation_at,
    parse_payment_json, hph, hf, hm, hl]

/-- A payment event agreeing with `pJane` on all identity fields but
differing in every transaction-metadata field. -/
def pJaneAlt : PaymentPayload :=
  ⟨"TX2", "20259999000000", "999", "700000", "ref2", "254712345678", "Jane",
    "", "Doe"⟩

/-- Witness for C10: `pJane` and `pJaneAlt` differ in all five transaction
fields yet the handler treats them identically. -/
theorem transaction_metadata_noninterference_case :
    (pJane.MSISDN = pJaneAlt.MSISDN ∧ pJane.FirstName = pJaneAlt.FirstName ∧
      pJane.MiddleName = pJaneAlt.MiddleName ∧
      pJane.LastName = pJaneAlt.LastName) ∧
    payment_confirmation pJane emptyDB =
      payment_confirmation pJaneAlt emptyDB :=
  ⟨⟨rfl, rfl, rfl, rfl⟩,
    transaction_metadata_noninterference pJane pJaneAlt emptyDB rfl rfl rfl
      rfl⟩

/-- The interleaving in which both handler invocations take their lookup
snapshot on the same state `db`, the first commits, and the second commits
against the first's result (source lines 234-243 for each invocation). -/
def raceFirstWins (p1 p2 : PaymentPayload) (db : DB) :
    PaymentResult × PaymentResult × DB :=
  let run1 := payment_confirmation_at db p1 db
  let run2 := payment_confirmation_at db p2 run1.2.1
  (run1.1, run2.1, run2.2.1)

/-- A second payment event for `pJane`'s phone with different name fields. -/
def pJaneDup : PaymentPayload :=
  ⟨"TX9", "20240101130000", "50", "600000", "refB", "254712345678", "Janet",
    "", ""⟩

/-- Counterexample to C6 as stated: in a creation race for phone
254712345678 on the empty store, the losing invocation answers
`storageError` (the handler's HTTP 500 branch) — it does not fall back to a
fresh lookup and succeed. -/
theorem race_loser_fails_rather_than_relookup :
    (raceFirstWins pJane pJaneDup emptyDB).2.1 =
      PaymentResult.storageError ∧
    (raceFirstWins pJane pJaneDup emptyDB).2.1 ≠ PaymentResult.ok := by
  refine ⟨by decide, by decide⟩

/-- C6 amended: the unique index on phone is enforced at the store level, so
a creation race for the same phone leaves exactly one customer row; the
winning invocation acknowledges, but the losing invocation answers
`storageError` (HTTP 500) rather than falling back to a fresh lookup. -/
theorem race_unique_constraint_one_row_loser_errors (p1 p2 : PaymentPayload)
    (db : DB) (hf1 : p1.FirstName ≠ "") (hp1 : p1.MSISDN ≠ "")
    (hf2 : p2.FirstName ≠ "") (hsame : p2.MSISDN = p1.MSISDN)
    (h : lookupCustomer db p1.MSISDN = none) :
    (raceFirstWins p1 p2 db).1 = .ok ∧
    (raceFirstWins p1 p2 db).2.1 = .storageError ∧
    countPhone (raceFirstWins p1 p2 db).2.2 p1.MSISDN = 1 := by
  have hp2 : p2.MSISDN ≠ "" := by rw [hsame]; exact hp1
  have h2 : lookupCustomer db p2.MSISDN = none := by rw [hsame]; exact h
  have hrun1 : payment_confirmation_at db p1 db =
      (.ok,
        ⟨db.customers ++ [⟨db.nextCustomerId, p1.FirstName,
          pyOr p1.MiddleName "", pyOr p1.LastName "", p1.MSISDN⟩],
          db.feedbacks, db.nextCustomerId + 1, db.nextFeedbackId⟩,
        [⟨p1.MSISDN, p1.FirstName⟩]) :=
    payment_confirmation_of_lookup_none p1 db hf1 hp1 h
  have hany : (db.customers ++ [(⟨db.nextCustomerId, p1.FirstName,
      pyOr p1.MiddleName "", pyOr p1.LastName "", p1.MSISDN⟩ : Customer)]).any
        (fun c => c.phone == p2.MSISDN) = true := by
    rw [List.any_append]
    simp [hsame]
  have hrun2 : payment_confirmation_at db p2
      ⟨db.customers ++ [⟨db.nextCustomerId, p1.FirstName,
        pyOr p1.MiddleName "", pyOr p1.LastName "", p1.MSISDN⟩],
        db.feedbacks, db.nextCustomerId + 1, db.nextFeedbackId⟩ =
      (.storageError,
        ⟨db.customers ++ [⟨db.nextCustomerId, p1.FirstName,
          pyOr p1.MiddleName "", pyOr p1.LastName "", p1.MSISDN⟩],
          db.feedbacks, db.nextCustomerId + 1, db.nextFeedbackId⟩, []) :=
    payment_confirmation_at_race_loser db _ p2 hf2 hp2 h2 hany
  refine ⟨?_, ?_, ?_⟩
  · simp only [raceFirstWins, hrun1]
  · simp only [raceFirstWins, hrun1, hrun2]
  · simp only [raceFirstWins, hrun1, hrun2, countPhone]
    exact countP_append_single (countPhone_eq_zero_of_lookup_none h) rfl

/-- Witness for the amended C6 at the concrete racing events. -/
theorem race_unique_constraint_one_row_loser_errors_case :
    pJane.FirstName ≠ "" ∧ pJane.MSISDN ≠ "" ∧ pJaneDup.FirstName ≠ "" ∧
    pJaneDup.MSISDN = pJane.MSISDN ∧
    lookupCustomer emptyDB pJane.MSISDN = none ∧
    ((raceFirstWins pJane pJaneDup emptyDB).1 = .ok ∧
      (raceFirstWins pJane pJaneDup emptyDB).2.1 = .storageError ∧
      countPhone (raceFirstWins pJane pJaneDup emptyDB).2.2 pJane.MSISDN =
        1) :=
  ⟨by decide, by decide, by decide, by decide, rfl,
    race_unique_constraint_one_row_loser_errors pJane pJaneDup emptyDB
      (by decide) (by decide) (by decide) (by decide) rfl⟩

end FeedbackSystem
